import Mathlib

/-!
# Verification of the fraud-QA risk aggregation and classification pipeline

Shallow embedding of the quantitative core of the repository
(`fraud_risk_analyzer.py`, `test_summary_generator.py`,
`test_execution_engine.py`, `fraud_qa_agent.py`): test-result
classification, the confusion-matrix aggregator, the weighted risk score,
and the deployment decision functions.  Python floats are modelled as
exact rationals (`ℚ`); Python string membership (`needle in haystack`)
is modelled by an executable substring search.
-/

namespace FraudQA

/-! ## String helpers (Python `in` operator and `.lower()`) -/

/-- Auxiliary check that the first character list is a leading segment of
the second. -/
def charListPref : List Char → List Char → Bool
  | [], _ => true
  | _ :: _, [] => false
  | c :: cs, d :: ds => c == d && charListPref cs ds

/-- Contiguous-substring occurrence on character lists: the embedding of
Python `needle in hay`. -/
def charListContains (hay needle : List Char) : Bool :=
  match hay with
  | [] => charListPref needle []
  | _ :: t => charListPref needle hay || charListContains t needle

/-- Python `needle in hay` for strings. -/
def strContains (hay needle : String) : Bool :=
  charListContains hay.data needle.data

/-- Python `str.lower()` as used on the ASCII test-case ids. -/
def strLower (s : String) : String :=
  ⟨s.data.map Char.toLower⟩

/-! ## Data model (`fraud_qa_agent.py`) -/

/-- Test execution status enum from `fraud_qa_agent.py`. -/
inductive TestStatus
  | PASSED
  | FAILED
  | BLOCKED
  | SKIPPED
  deriving DecidableEq, Repr

/-- Risk level enum from `fraud_qa_agent.py`. -/
inductive RiskLevel
  | LOW
  | MEDIUM
  | HIGH
  | CRITICAL
  deriving DecidableEq, Repr

/-- The fields of the `TestResult` dataclass consumed by the risk
analyzer, the summary generator and the deployment decision. -/
structure TestResult where
  test_case_id : String
  status : TestStatus
  errors : List String
  deriving DecidableEq, Repr

/-- The `RiskAssessment` dataclass from `fraud_qa_agent.py`. -/
structure RiskAssessment where
  overall_risk_score : ℚ
  risk_level : RiskLevel
  detection_risk : ℚ
  false_positive_risk : ℚ
  compliance_risk : ℚ
  system_risk : ℚ
  recommendations : List String
  deriving DecidableEq, Repr

/-! ## Python `round(x, 2)`

Python 3 `round` rounds half to even (banker's rounding). -/

/-- Python `round(q, 2)`: round to 2 decimal places, ties to even. -/
def round2 (q : ℚ) : ℚ :=
  let y := q * 100
  let f : ℤ := ⌊y⌋
  let r := y - (f : ℚ)
  if r < 1/2 then (f : ℚ) / 100
  else if 1/2 < r then ((f : ℚ) + 1) / 100
  else if f % 2 = 0 then (f : ℚ) / 100 else ((f : ℚ) + 1) / 100

/-! ## Risk analyzer (`fraud_risk_analyzer.py`, class `FraudRiskAnalyzer`) -/

namespace FraudRiskAnalyzer

/-- Entry `detection_risk` of `self.risk_weights` (0.35). -/
def weight_detection : ℚ := 35/100

/-- Entry `false_positive_risk` of `self.risk_weights` (0.20). -/
def weight_false_positive : ℚ := 20/100

/-- Entry `compliance_risk` of `self.risk_weights` (0.30). -/
def weight_compliance : ℚ := 30/100

/-- Entry `system_risk` of `self.risk_weights` (0.15). -/
def weight_system : ℚ := 15/100

/-- Filter of the `fraud_tests` list comprehension in
`_calculate_detection_risk` (also used verbatim by
`TestSummaryGenerator._calculate_accuracy_metrics`): id contains
"fraud" (case-insensitive), does not contain "neg" (case-insensitive),
and contains neither "Performance" nor "Compliance". -/
def fraudTestFilter (r : TestResult) : Bool :=
  strContains (strLower r.test_case_id) "fraud"
    && !strContains (strLower r.test_case_id) "neg"
    && !strContains r.test_case_id "Performance"
    && !strContains r.test_case_id "Compliance"

/-- Filter of the `negative_tests` list comprehension in
`_calculate_false_positive_risk` (and of `legit_tests` in the summary
generator): id contains "neg" (case-insensitive). -/
def negTestFilter (r : TestResult) : Bool :=
  strContains (strLower r.test_case_id) "neg"

/-- The `fraud_tests` list of `_calculate_detection_risk`. -/
def fraud_tests (test_results : List TestResult) : List TestResult :=
  test_results.filter fraudTestFilter

/-- The false-negative condition counted in `_calculate_detection_risk`:
status `FAILED` and `'FALSE NEGATIVE' in ' '.join(r.errors)`. -/
def falseNegativeTag (r : TestResult) : Bool :=
  r.status == TestStatus.FAILED
    && strContains (String.intercalate " " r.errors) "FALSE NEGATIVE"

/-- The piecewise risk curve of `_calculate_detection_risk`
(before the final `min(100, .)`). -/
def detectionCurve (fn_rate : ℚ) : ℚ :=
  if fn_rate < 5/100 then fn_rate * 400
  else if fn_rate < 10/100 then 20 + (fn_rate - 5/100) * 1200
  else 80 + (fn_rate - 10/100) * 200

/-- First branch formula of `detectionCurve` (`fn_rate * 400`). -/
def detectionCurveLow (fn_rate : ℚ) : ℚ := fn_rate * 400

/-- Middle branch formula of `detectionCurve`. -/
def detectionCurveMid (fn_rate : ℚ) : ℚ := 20 + (fn_rate - 5/100) * 1200

/-- Last branch formula of `detectionCurve`. -/
def detectionCurveHigh (fn_rate : ℚ) : ℚ := 80 + (fn_rate - 10/100) * 200

/-- `FraudRiskAnalyzer._calculate_detection_risk`. -/
def calculate_detection_risk (test_results : List TestResult) : ℚ :=
  let ft := fraud_tests test_results
  if ft.isEmpty then 0
  else
    let false_negatives := ft.countP falseNegativeTag
    let fn_rate : ℚ := (false_negatives : ℚ) / (ft.length : ℚ)
    min 100 (detectionCurve fn_rate)

/-- The false-positive condition counted in
`_calculate_false_positive_risk`: status `FAILED` and
`'FALSE POSITIVE' in ' '.join(r.errors)`. -/
def falsePositiveTag (r : TestResult) : Bool :=
  r.status == TestStatus.FAILED
    && strContains (String.intercalate " " r.errors) "FALSE POSITIVE"

/-- The piecewise risk curve of `_calculate_false_positive_risk`
(before the final `min(100, .)`). -/
def falsePositiveCurve (fp_rate : ℚ) : ℚ :=
  if fp_rate < 10/100 then fp_rate * 300
  else if fp_rate < 20/100 then 30 + (fp_rate - 10/100) * 500
  else 80 + (fp_rate - 20/100) * 100

/-- First branch formula of `falsePositiveCurve`. -/
def falsePositiveCurveLow (fp_rate : ℚ) : ℚ := fp_rate * 300

/-- Middle branch formula of `falsePositiveCurve`. -/
def falsePositiveCurveMid (fp_rate : ℚ) : ℚ := 30 + (fp_rate - 10/100) * 500

/-- Last branch formula of `falsePositiveCurve`. -/
def falsePositiveCurveHigh (fp_rate : ℚ) : ℚ := 80 + (fp_rate - 20/100) * 100

/-- `FraudRiskAnalyzer._calculate_false_positive_risk`. -/
def calculate_false_positive_risk (test_results : List TestResult) : ℚ :=
  let negative_tests := test_results.filter negTestFilter
  if negative_tests.isEmpty then 0
  else
    let false_positives := negative_tests.countP falsePositiveTag
    let fp_rate : ℚ := (false_positives : ℚ) / (negative_tests.length : ℚ)
    min 100 (falsePositiveCurve fp_rate)

/-- Filter of the `compliance_tests` list comprehension in
`_calculate_compliance_risk`: id contains "Compliance" or "COMP". -/
def complianceTestFilter (r : TestResult) : Bool :=
  strContains r.test_case_id "Compliance" || strContains r.test_case_id "COMP"

/-- `FraudRiskAnalyzer._calculate_compliance_risk`: step function on the
number of failed compliance tests. -/
def calculate_compliance_risk (test_results : List TestResult) : ℚ :=
  let compliance_tests := test_results.filter complianceTestFilter
  if compliance_tests.isEmpty then 0
  else
    let failed_compliance := compliance_tests.countP (·.status == TestStatus.FAILED)
    if failed_compliance = 0 then 0
    else if failed_compliance = 1 then 60
    else if failed_compliance = 2 then 85
    else 100

/-- Filter of the `performance_tests` list comprehension in
`_calculate_system_risk`: id contains "Performance" or "PERF". -/
def performanceTestFilter (r : TestResult) : Bool :=
  strContains r.test_case_id "Performance" || strContains r.test_case_id "PERF"

/-- The piecewise risk curve of `_calculate_system_risk`.  The source's
trailing `return min(100, failure_rate * 1000)` is unreachable (every
branch of the preceding if/elif/else returns first), so no cap is
applied to the last branch. -/
def systemCurve (failure_rate : ℚ) : ℚ :=
  if failure_rate < 2/100 then failure_rate * 1000
  else if failure_rate < 5/100 then 20 + (failure_rate - 2/100) * 1333
  else 60 + (failure_rate - 5/100) * 800

/-- First branch formula of `systemCurve`. -/
def systemCurveLow (failure_rate : ℚ) : ℚ := failure_rate * 1000

/-- Middle branch formula of `systemCurve`. -/
def systemCurveMid (failure_rate : ℚ) : ℚ := 20 + (failure_rate - 2/100) * 1333

/-- Last branch formula of `systemCurve`. -/
def systemCurveHigh (failure_rate : ℚ) : ℚ := 60 + (failure_rate - 5/100) * 800

/-- `FraudRiskAnalyzer._calculate_system_risk`. -/
def calculate_system_risk (test_results : List TestResult) : ℚ :=
  let performance_tests := test_results.filter performanceTestFilter
  if performance_tests.isEmpty then 0
  else
    let perf_failures := performance_tests.countP (·.status == TestStatus.FAILED)
    let blocked_tests := test_results.countP (·.status == TestStatus.BLOCKED)
    let total_tests := test_results.length
    let failure_rate : ℚ := ((perf_failures + blocked_tests : ℕ) : ℚ) / (total_tests : ℚ)
    systemCurve failure_rate

/-- The weighted sum computed inline in `calculate_risk` from the four
component scores and `self.risk_weights`. -/
def overallScore (detection_risk false_positive_risk compliance_risk system_risk : ℚ) : ℚ :=
  detection_risk * weight_detection
    + false_positive_risk * weight_false_positive
    + compliance_risk * weight_compliance
    + system_risk * weight_system

/-- `FraudRiskAnalyzer._categorize_risk`. -/
def categorize_risk (risk_score : ℚ) : RiskLevel :=
  if risk_score ≥ 75 then RiskLevel.CRITICAL
  else if risk_score ≥ 50 then RiskLevel.HIGH
  else if risk_score ≥ 25 then RiskLevel.MEDIUM
  else RiskLevel.LOW

/-- Advisory string appended for `detection_risk >= 75`. -/
def msgDetectionCritical : String :=
  "🔴 CRITICAL: High false negative rate detected. Immediately review and retrain fraud detection models. Consider deploying ensemble models for improved detection."

/-- Advisory string appended for `detection_risk >= 50`. -/
def msgDetectionHigh : String :=
  "⚠️ HIGH: Elevated false negative rate. Review detection rules and thresholds. Analyze missed fraud patterns and update algorithms."

/-- Advisory string appended for `detection_risk >= 25`. -/
def msgDetectionMedium : String :=
  "⚠️ MEDIUM: Some fraud patterns being missed. Fine-tune detection rules for identified gaps."

/-- Advisory string appended for `false_positive_risk >= 75`. -/
def msgFalsePositiveCritical : String :=
  "🔴 CRITICAL: High false positive rate causing customer friction. Implement adaptive thresholds based on customer risk profiles. Review and adjust overly aggressive rules."

/-- Advisory string appended for `false_positive_risk >= 50`. -/
def msgFalsePositiveHigh : String :=
  "⚠️ HIGH: Elevated false positive rate. Optimize risk scoring algorithm to reduce false alerts. Consider implementing customer behavior learning."

/-- Advisory string appended for `compliance_risk >= 60`. -/
def msgComplianceBlocking : String :=
  "🛑 BLOCKING: Compliance violations detected. Fix all compliance gaps before production deployment. This is a go/no-go blocker."

/-- Advisory string appended for `compliance_risk >= 30`. -/
def msgComplianceConcern : String :=
  "⚠️ Compliance concerns identified. Address all compliance issues and re-validate before deployment."

/-- Advisory string appended for `system_risk >= 60`. -/
def msgSystemCritical : String :=
  "🔴 CRITICAL: System reliability issues detected. Performance degradation or failures under load. Conduct capacity planning and optimize critical paths."

/-- Advisory string appended for `system_risk >= 30`. -/
def msgSystemConcern : String :=
  "⚠️ System performance concerns. Optimize slow queries and implement caching strategies."

/-- Advisory string appended when the failure rate exceeds 15%. -/
def msgPassRate : String :=
  "⚠️ Overall test pass rate below 85%. Comprehensive review and remediation required before deployment."

/-- Affirmation emitted when no other recommendation fired. -/
def msgApproved : String :=
  "✅ All risk metrics within acceptable ranges. System appears ready for deployment pending final approvals."

/-- `FraudRiskAnalyzer._generate_recommendations`.  The source divides
`failed_count / total_count` without a zero guard, so on an empty result
list Python raises `ZeroDivisionError`; that fault is modelled as
`none`. -/
def generate_recommendations (detection_risk false_positive_risk compliance_risk system_risk : ℚ)
    (test_results : List TestResult) : Option (List String) :=
  let recommendations :=
    (if detection_risk ≥ 75 then [msgDetectionCritical]
     else if detection_risk ≥ 50 then [msgDetectionHigh]
     else if detection_risk ≥ 25 then [msgDetectionMedium]
     else [])
    ++ (if false_positive_risk ≥ 75 then [msgFalsePositiveCritical]
        else if false_positive_risk ≥ 50 then [msgFalsePositiveHigh]
        else [])
    ++ (if compliance_risk ≥ 60 then [msgComplianceBlocking]
        else if compliance_risk ≥ 30 then [msgComplianceConcern]
        else [])
    ++ (if system_risk ≥ 60 then [msgSystemCritical]
        else if system_risk ≥ 30 then [msgSystemConcern]
        else [])
  let failed_count := test_results.countP (·.status == TestStatus.FAILED)
  let total_count := test_results.length
  if total_count = 0 then none
  else
    let recommendations :=
      recommendations
        ++ (if (failed_count : ℚ) / (total_count : ℚ) > 15/100 then [msgPassRate] else [])
    some (if recommendations.isEmpty then [msgApproved] else recommendations)

/-- `FraudRiskAnalyzer.calculate_risk`: component scores, weighted
overall score, categorical level, recommendations, and the assessment
with every stored score rounded to two decimals.  `none` models the
`ZeroDivisionError` raised from `_generate_recommendations` on an empty
input. -/
def calculate_risk (test_results : List TestResult) : Option RiskAssessment :=
  let detection_risk := calculate_detection_risk test_results
  let false_positive_risk := calculate_false_positive_risk test_results
  let compliance_risk := calculate_compliance_risk test_results
  let system_risk := calculate_system_risk test_results
  let overall_risk_score :=
    overallScore detection_risk false_positive_risk compliance_risk system_risk
  let risk_level := categorize_risk overall_risk_score
  (generate_recommendations detection_risk false_positive_risk compliance_risk system_risk
      test_results).map fun recommendations =>
    { overall_risk_score := round2 overall_risk_score
      risk_level := risk_level
      detection_risk := round2 detection_risk
      false_positive_risk := round2 false_positive_risk
      compliance_risk := round2 compliance_risk
      system_risk := round2 system_risk
      recommendations := recommendations }

/-- The `contribution` field for `detection_risk` in
`generate_risk_report`: stored score times weight. -/
def contribution_detection (a : RiskAssessment) : ℚ :=
  a.detection_risk * weight_detection

/-- The `contribution` field for `false_positive_risk` in
`generate_risk_report`. -/
def contribution_false_positive (a : RiskAssessment) : ℚ :=
  a.false_positive_risk * weight_false_positive

/-- The `contribution` field for `compliance_risk` in
`generate_risk_report`. -/
def contribution_compliance (a : RiskAssessment) : ℚ :=
  a.compliance_risk * weight_compliance

/-- The `contribution` field for `system_risk` in
`generate_risk_report`. -/
def contribution_system (a : RiskAssessment) : ℚ :=
  a.system_risk * weight_system

/-- Sum of the four contribution fields reported in the risk
breakdown of `generate_risk_report`. -/
def contributionSum (a : RiskAssessment) : ℚ :=
  contribution_detection a + contribution_false_positive a
    + contribution_compliance a + contribution_system a

/-- `FraudRiskAnalyzer._get_deployment_recommendation` (the decision
path used by `generate_risk_report`). -/
def get_deployment_recommendation_report (assessment : RiskAssessment) : String :=
  if assessment.compliance_risk ≥ 60 then
    "🛑 DO NOT DEPLOY - Compliance violations (BLOCKING)"
  else if assessment.risk_level == RiskLevel.CRITICAL then
    "🛑 DO NOT DEPLOY - Critical risk level"
  else if assessment.risk_level == RiskLevel.HIGH then
    "⚠️ DEPLOY WITH CAUTION - High risk, requires executive approval"
  else if assessment.risk_level == RiskLevel.MEDIUM then
    "⚠️ CONDITIONAL APPROVAL - Medium risk, monitor closely post-deployment"
  else
    "✅ APPROVED FOR DEPLOYMENT - Low risk"

end FraudRiskAnalyzer

/-! ## Agent-level deployment decision (`fraud_qa_agent.py`) -/

namespace FraudQAAgent

/-- The `critical_failures` condition in
`FraudQAAgent.get_deployment_recommendation`: a `FAILED` result with
some error string containing "CRITICAL". -/
def criticalFailureFilter (r : TestResult) : Bool :=
  r.status == TestStatus.FAILED && r.errors.any (fun e => strContains e "CRITICAL")

/-- `FraudQAAgent.get_deployment_recommendation` (the primary decision
path).  `risk_assessment` is the agent's `self.risk_assessment`
(optional) and `test_results` its `self.test_results`. -/
def get_deployment_recommendation (risk_assessment : Option RiskAssessment)
    (test_results : List TestResult) : String :=
  match risk_assessment with
  | none => "UNKNOWN - Risk assessment not completed"
  | some assessment =>
    let risk_score := assessment.overall_risk_score
    let critical_failures := test_results.countP criticalFailureFilter
    if critical_failures > 0 then
      "🛑 DO NOT DEPLOY - Critical failures detected"
    else if risk_score ≥ 75 then
      "⚠️ DO NOT DEPLOY - High risk score"
    else if risk_score ≥ 50 then
      "⚠️ DEPLOY WITH CAUTION - Medium risk, requires approval"
    else
      "✅ APPROVED FOR DEPLOYMENT - Low risk"

end FraudQAAgent

/-! ## Accuracy aggregator (`test_summary_generator.py`) -/

namespace TestSummaryGenerator

/-- The `fraud_tests` list of `_calculate_accuracy_metrics` (same filter
as the risk analyzer's detection filter). -/
def fraud_tests (test_results : List TestResult) : List TestResult :=
  test_results.filter FraudRiskAnalyzer.fraudTestFilter

/-- The `legit_tests` list of `_calculate_accuracy_metrics`: id contains
"neg" (case-insensitive). -/
def legit_tests (test_results : List TestResult) : List TestResult :=
  test_results.filter FraudRiskAnalyzer.negTestFilter

/-- `true_positives` of the confusion matrix: fraud tests with status
`PASSED`. -/
def true_positives (test_results : List TestResult) : ℕ :=
  (fraud_tests test_results).countP (·.status == TestStatus.PASSED)

/-- `false_negatives` of the confusion matrix: fraud tests with status
`FAILED`. -/
def false_negatives (test_results : List TestResult) : ℕ :=
  (fraud_tests test_results).countP (·.status == TestStatus.FAILED)

/-- `true_negatives` of the confusion matrix: legit tests with status
`PASSED`. -/
def true_negatives (test_results : List TestResult) : ℕ :=
  (legit_tests test_results).countP (·.status == TestStatus.PASSED)

/-- `false_positives` of the confusion matrix: legit tests with status
`FAILED`. -/
def false_positives (test_results : List TestResult) : ℕ :=
  (legit_tests test_results).countP (·.status == TestStatus.FAILED)

/-- `total_fraud` in `_calculate_accuracy_metrics`. -/
def total_fraud (test_results : List TestResult) : ℕ :=
  (fraud_tests test_results).length

/-- `total_legit` in `_calculate_accuracy_metrics`. -/
def total_legit (test_results : List TestResult) : ℕ :=
  (legit_tests test_results).length

/-- The `precision` variable of `_calculate_accuracy_metrics`, with its
zero-denominator guard. -/
def precision (test_results : List TestResult) : ℚ :=
  let tp := true_positives test_results
  let fp := false_positives test_results
  if tp + fp > 0 then (tp : ℚ) / ((tp : ℚ) + (fp : ℚ)) else 0

/-- The `recall` variable of `_calculate_accuracy_metrics`, with its
zero-denominator guard. -/
def recall_metric (test_results : List TestResult) : ℚ :=
  let tp := true_positives test_results
  let fn := false_negatives test_results
  if tp + fn > 0 then (tp : ℚ) / ((tp : ℚ) + (fn : ℚ)) else 0

/-- The `f1_score` variable of `_calculate_accuracy_metrics`, with its
zero-denominator guard. -/
def f1_score (test_results : List TestResult) : ℚ :=
  let p := precision test_results
  let r := recall_metric test_results
  if p + r > 0 then 2 * p * r / (p + r) else 0

end TestSummaryGenerator

/-! ## Result validator (`test_execution_engine.py`) -/

namespace TestExecutionEngine

/-- The recognized optional keys of a test case's `expected_result`
dict, as read by `_validate_result`. -/
structure ExpectedResult where
  fraud_alert_triggered : Option Bool
  risk_score : Option ℚ
  deriving Repr

/-- The keys of the oracle's actual-result dict read by
`_validate_result` (each `Option` models `dict.get` with its default). -/
structure ActualResult where
  fraud_alert_triggered : Option Bool
  risk_score : Option ℚ
  max_response_time_ms : Option ℚ
  compliance_met : Option Bool
  violations : List String
  deriving Repr

/-- The fields of the `TestCase` dataclass read by `_validate_result`
(`max_allowed_response_time_ms` is the relevant `test_data` key). -/
structure TestCase where
  test_case_id : String
  category : String
  max_allowed_response_time_ms : Option ℚ
  expected_result : ExpectedResult
  deriving Repr

/-- The `{status, errors, warnings}` dict returned by
`_validate_result`. -/
structure ValidationResult where
  status : TestStatus
  errors : List String
  warnings : List String
  deriving Repr

/-- Errors appended by the fraud-alert check of `_validate_result`
(first block). -/
def alertErrors (test_case : TestCase) (actual_result : ActualResult) : List String :=
  match test_case.expected_result.fraud_alert_triggered with
  | none => []
  | some expected_alert =>
    let actual_alert := actual_result.fraud_alert_triggered.getD false
    if expected_alert != actual_alert then
      if expected_alert then
        ["FALSE NEGATIVE: Fraud not detected (expected alert, got none)"]
      else
        ["FALSE POSITIVE: Legitimate transaction flagged (expected no alert, got alert)"]
    else []

/-- Warnings appended by the risk-score check of `_validate_result`
(15-point variance allowance). -/
def scoreWarnings (test_case : TestCase) (actual_result : ActualResult) : List String :=
  match test_case.expected_result.risk_score with
  | none => []
  | some expected_score =>
    let actual_score := actual_result.risk_score.getD 0
    if |expected_score - actual_score| > 15 then
      ["Risk score variance: expected ~" ++ toString expected_score
        ++ ", got " ++ toString actual_score]
    else []

/-- Errors appended by the performance check of `_validate_result`
(categories containing "Performance"). -/
def performanceErrors (test_case : TestCase) (actual_result : ActualResult) : List String :=
  if strContains test_case.category "Performance" then
    let max_allowed := test_case.max_allowed_response_time_ms.getD 5000
    let actual_max := actual_result.max_response_time_ms.getD 0
    if actual_max > max_allowed then
      ["Performance SLA violation: " ++ toString actual_max ++ "ms > "
        ++ toString max_allowed ++ "ms"]
    else []
  else []

/-- Errors appended by the compliance check of `_validate_result`
(categories containing "Compliance"). -/
def complianceErrors (test_case : TestCase) (actual_result : ActualResult) : List String :=
  if strContains test_case.category "Compliance" then
    if !(actual_result.compliance_met.getD false) then
      ["Compliance validation failed: " ++ String.intercalate ", " actual_result.violations]
    else []
  else []

/-- `TestExecutionEngine._validate_result`: the four checks in source
order, then the status determination (the source's inner branch on
CRITICAL / FALSE NEGATIVE errors yields `FAILED` in both arms). -/
def validate_result (test_case : TestCase) (actual_result : ActualResult) : ValidationResult :=
  let errors := alertErrors test_case actual_result
    ++ performanceErrors test_case actual_result
    ++ complianceErrors test_case actual_result
  let warnings := scoreWarnings test_case actual_result
  let status :=
    if !errors.isEmpty then
      if errors.any (fun err => strContains err "CRITICAL" || strContains err "FALSE NEGATIVE")
      then TestStatus.FAILED
      else TestStatus.FAILED
    else if !warnings.isEmpty then TestStatus.PASSED
    else TestStatus.PASSED
  ⟨status, errors, warnings⟩

end TestExecutionEngine

/-! ## The spec's merged deployment-decision rules (section 4.5)

The spec states five ordered rules merging both implementation paths.
The following definition follows the spec's words, not the source, and
exists only to be compared against the two implemented decision
functions. -/

/-- Outcome labels of the spec's five-rule deployment decision. -/
inductive SpecDecision
  | doNotDeployCritical
  | doNotDeployHighRisk
  | doNotDeployCompliance
  | deployWithCaution
  | approved
  deriving DecidableEq, Repr

/-- Deployment decision following the five ordered rules of spec section
4.5 as written (critical failure, then overall score at least 75, then
compliance risk at least 60, then overall score at least 50, else
approved).  Defined from the spec text for comparison with the two
implementation paths. -/
def specDeploymentDecision (assessment : RiskAssessment) (test_results : List TestResult) :
    SpecDecision :=
  if test_results.any FraudQAAgent.criticalFailureFilter then SpecDecision.doNotDeployCritical
  else if assessment.overall_risk_score ≥ 75 then SpecDecision.doNotDeployHighRisk
  else if assessment.compliance_risk ≥ 60 then SpecDecision.doNotDeployCompliance
  else if assessment.overall_risk_score ≥ 50 then SpecDecision.deployWithCaution
  else SpecDecision.approved

/-! ## Concrete inputs used in counterexamples and witnesses -/

/-- A single failed performance test (id "PERF-001"). -/
def perfFailed : TestResult :=
  ⟨"PERF-001", TestStatus.FAILED, ["Performance SLA violation: 6000ms > 5000ms"]⟩

/-- A fraud-positive test whose execution was blocked. -/
def blockedFraud : TestResult :=
  ⟨"FRAUD-BLOCKED-001", TestStatus.BLOCKED, ["Test execution failed: timeout"]⟩

/-- A failed test carrying a CRITICAL-tagged error. -/
def critFailResult : TestResult :=
  ⟨"FRAUD-001", TestStatus.FAILED, ["CRITICAL: model crash"]⟩

/-- Six fraud-positive tests of which exactly one failed with a
FALSE NEGATIVE error (false-negative rate 1/6). -/
def ex6 : List TestResult :=
  [⟨"FRAUD-001", TestStatus.PASSED, []⟩,
   ⟨"FRAUD-002", TestStatus.PASSED, []⟩,
   ⟨"FRAUD-003", TestStatus.PASSED, []⟩,
   ⟨"FRAUD-004", TestStatus.PASSED, []⟩,
   ⟨"FRAUD-005", TestStatus.PASSED, []⟩,
   ⟨"FRAUD-006", TestStatus.FAILED,
    ["FALSE NEGATIVE: Fraud not detected (expected alert, got none)"]⟩]

/-- The assessment produced by `calculate_risk` on `ex6`: raw detection
risk 280/3 is stored as 93.33, raw overall score 98/3 as 32.67. -/
def exA6 : RiskAssessment :=
  ⟨3267/100, RiskLevel.MEDIUM, 9333/100, 0, 0, 0,
   [FraudRiskAnalyzer.msgDetectionCritical, FraudRiskAnalyzer.msgPassRate]⟩

/-- An assessment with blocking compliance risk (60) but overall score
56.5, below the critical threshold. -/
def cexAssessment : RiskAssessment :=
  ⟨113/2, RiskLevel.HIGH, 80, 30, 60, 30, []⟩

/-- A test case expecting risk score 50, with no expected alert and a
category subject to neither the performance nor the compliance check. -/
def tcW : TestExecutionEngine.TestCase :=
  ⟨"FRAUD-001", "Fraud Detection", none, ⟨none, some 50⟩⟩

/-- An actual result scoring 80 (deviation 30 from the expected 50). -/
def arW : TestExecutionEngine.ActualResult :=
  ⟨none, some 80, none, none, []⟩

/-! ## Helper lemmas -/

open FraudRiskAnalyzer TestExecutionEngine

/-- Counts under two pointwise-disjoint predicates add up to the count
under their disjunction. -/
lemma countP_add_countP_disjoint {α : Type} (l : List α) (p q : α → Bool)
    (h : ∀ x, !(p x && q x)) :
    l.countP p + l.countP q = l.countP (fun x => p x || q x) := by
  induction l with
  | nil => simp
  | cons a t ih =>
    have ha := h a
    simp only [List.countP_cons]
    cases hp : p a <;> cases hq : q a <;> simp [hp, hq] at ha ⊢ <;> omega

/-- Rounding to two decimal places moves a rational by at most 1/200. -/
lemma abs_round2_sub_le (q : ℚ) : |round2 q - q| ≤ 1/200 := by
  have h1 : ((⌊q * 100⌋ : ℚ)) ≤ q * 100 := Int.floor_le _
  have h2 : q * 100 < (⌊q * 100⌋ : ℚ) + 1 := Int.lt_floor_add_one _
  simp only [round2]
  split_ifs with ha hb hc <;> rw [abs_le] <;> constructor <;> linarith

/-- The status returned by the validator depends only on whether the
accumulated error list is empty (both arms of the source's inner
CRITICAL check yield FAILED, and both warning arms yield PASSED). -/
lemma validate_status (tc : TestCase) (ar : ActualResult) :
    (validate_result tc ar).status =
      if (alertErrors tc ar ++ performanceErrors tc ar ++ complianceErrors tc ar).isEmpty
      then TestStatus.PASSED else TestStatus.FAILED := by
  simp only [validate_result]
  cases hE : (alertErrors tc ar ++ performanceErrors tc ar ++ complianceErrors tc ar).isEmpty <;>
    cases hW : (scoreWarnings tc ar).isEmpty <;> simp [hE, hW, ite_self]

/-- The error list returned by the validator is the concatenation of the
three error-producing checks in source order. -/
lemma validate_errors (tc : TestCase) (ar : ActualResult) :
    (validate_result tc ar).errors =
      alertErrors tc ar ++ performanceErrors tc ar ++ complianceErrors tc ar := rfl

/-- The warning list returned by the validator comes from the risk-score
variance check alone. -/
lemma validate_warnings (tc : TestCase) (ar : ActualResult) :
    (validate_result tc ar).warnings = scoreWarnings tc ar := rfl

/-- Detection risk on `ex6`: false-negative rate 1/6 lands on the last
curve branch, giving 80 + (1/6 - 1/10) * 200 = 280/3. -/
lemma ex6_det : calculate_detection_risk ex6 = 280/3 := by
  simp only [calculate_detection_risk]
  rw [show fraud_tests ex6 = ex6 from by decide,
    show ex6.isEmpty = false from by decide,
    show ex6.countP falseNegativeTag = 1 from by decide,
    show ex6.length = 6 from rfl]
  norm_num [detectionCurve]

/-- No negative tests in `ex6`, so false-positive risk is 0. -/
lemma ex6_fp : calculate_false_positive_risk ex6 = 0 := by
  simp only [calculate_false_positive_risk]
  rw [show ex6.filter negTestFilter = [] from by decide]
  simp

/-- No compliance tests in `ex6`, so compliance risk is 0. -/
lemma ex6_comp : calculate_compliance_risk ex6 = 0 := by
  simp only [calculate_compliance_risk]
  rw [show ex6.filter complianceTestFilter = [] from by decide]
  simp

/-- No performance tests in `ex6`, so system risk is 0. -/
lemma ex6_sys : calculate_system_risk ex6 = 0 := by
  simp only [calculate_system_risk]
  rw [show ex6.filter performanceTestFilter = [] from by decide]
  simp

/-- Recommendations on `ex6`: the critical detection advisory (280/3 is
at least 75) plus the pass-rate advisory (failure rate 1/6 exceeds
15%). -/
lemma ex6_recs :
    generate_recommendations (280/3) 0 0 0 ex6 =
      some [msgDetectionCritical, msgPassRate] := by
  simp only [generate_recommendations]
  rw [show ex6.countP (·.status == TestStatus.FAILED) = 1 from by decide,
    show ex6.length = 6 from rfl]
  norm_num

/-- Full evaluation of `calculate_risk` on `ex6`. -/
lemma ex6_calc : calculate_risk ex6 = some exA6 := by
  unfold calculate_risk
  simp only [ex6_det, ex6_fp, ex6_comp, ex6_sys, ex6_recs, Option.map_some]
  rw [show overallScore (280/3) 0 0 0 = 98/3 from by
      norm_num [overallScore, weight_detection, weight_false_positive, weight_compliance,
        weight_system]]
  rw [show round2 (280/3) = 9333/100 from by simp only [round2]; norm_num,
    show round2 (98/3) = 3267/100 from by simp only [round2]; norm_num,
    show round2 0 = 0 from by simp only [round2]; norm_num]
  norm_num [categorize_risk, exA6]

/-! ## Claim theorems -/

/-- C2: the system-risk component is NOT clamped to [0, 100].  On a
single failed performance test the failure rate is 1, the last branch of
the curve yields 60 + (1 - 0.05) * 800 = 820, and the source's capping
line is unreachable, so `_calculate_system_risk` returns 820 > 100. -/
theorem C2_system_risk_exceeds_cap :
    calculate_system_risk [perfFailed] = 820 ∧ ¬calculate_system_risk [perfFailed] ≤ 100 := by
  have h : calculate_system_risk [perfFailed] = 820 := by
    simp only [calculate_system_risk]
    rw [show ([perfFailed].filter performanceTestFilter) = [perfFailed] from by decide,
      show ([perfFailed].countP (·.status == TestStatus.FAILED)) = 1 from by decide,
      show ([perfFailed].countP (·.status == TestStatus.BLOCKED)) = 0 from by decide]
    norm_num [systemCurve]
  exact ⟨h, by rw [h]; norm_num⟩

/-- C3: on the empty result list every component score is 0, but
`calculate_risk` does not return an assessment: the recommendation
stage divides `failed_count / total_count` without a zero guard, so the
call faults (modelled as `none`). -/
theorem C3_empty_input_fault :
    calculate_risk [] = none
      ∧ calculate_detection_risk [] = 0
      ∧ calculate_false_positive_risk [] = 0
      ∧ calculate_compliance_risk [] = 0
      ∧ calculate_system_risk [] = 0 := by
  refine ⟨?_, ?_, ?_, ?_, ?_⟩
  · simp [calculate_risk, generate_recommendations]
  · simp [calculate_detection_risk, fraud_tests]
  · simp [calculate_false_positive_risk]
  · simp [calculate_compliance_risk]
  · simp [calculate_system_risk]

/-- C4 counterexample: the middle piece of the system-risk curve does
not meet the last piece at the 5% breakpoint: its value there is
20 + 0.03 * 1333 = 59.99 while the curve (taking the last piece at
exactly 5%) gives 60 — a gap of 0.01. -/
theorem C4_counterexample :
    systemCurveMid (5/100) ≠ systemCurve (5/100)
      ∧ systemCurveMid (5/100) = 5999/100
      ∧ systemCurve (5/100) = 60 := by
  refine ⟨?_, ?_, ?_⟩ <;> norm_num [systemCurveMid, systemCurve]

/-- C4 (amended): the detection and false-positive curves are continuous
at their breakpoints (detection meets at 20 for rate 5% and 80 for 10%,
false-positive at 30 for 10% and 80 for 20%), and the system curve meets
at 20 for rate 2%; but at the 5% breakpoint the middle system piece
reaches only 59.99 while the last piece starts at 60, leaving a gap of
0.01 (the middle slope is 1333 rather than the exact 4000/3). -/
theorem C4_amended :
    detectionCurveLow (5/100) = 20 ∧ detectionCurveMid (5/100) = 20
      ∧ detectionCurve (5/100) = 20
      ∧ detectionCurveMid (10/100) = 80 ∧ detectionCurveHigh (10/100) = 80
      ∧ detectionCurve (10/100) = 80
      ∧ falsePositiveCurveLow (10/100) = 30 ∧ falsePositiveCurveMid (10/100) = 30
      ∧ falsePositiveCurve (10/100) = 30
      ∧ falsePositiveCurveMid (20/100) = 80 ∧ falsePositiveCurveHigh (20/100) = 80
      ∧ falsePositiveCurve (20/100) = 80
      ∧ systemCurveLow (2/100) = 20 ∧ systemCurveMid (2/100) = 20
      ∧ systemCurve (2/100) = 20
      ∧ systemCurveHigh (5/100) = 60 ∧ systemCurve (5/100) = 60
      ∧ systemCurveMid (5/100) = 5999/100 := by
  refine ⟨?_, ?_, ?_, ?_, ?_, ?_, ?_, ?_, ?_, ?_, ?_, ?_, ?_, ?_, ?_, ?_, ?_, ?_⟩ <;>
    norm_num [detectionCurveLow, detectionCurveMid, detectionCurveHigh, detectionCurve,
      falsePositiveCurveLow, falsePositiveCurveMid, falsePositiveCurveHigh, falsePositiveCurve,
      systemCurveLow, systemCurveMid, systemCurveHigh, systemCurve]

/-- C5 counterexample: a single BLOCKED fraud-positive test is counted in
neither `true_positives` nor `false_negatives`, so TP + FN is 0 while the
total number of fraud-positive tests is 1. -/
theorem C5_counterexample :
    TestSummaryGenerator.true_positives [blockedFraud]
        + TestSummaryGenerator.false_negatives [blockedFraud]
        ≠ TestSummaryGenerator.total_fraud [blockedFraud]
      ∧ TestSummaryGenerator.true_positives [blockedFraud]
        + TestSummaryGenerator.false_negatives [blockedFraud] = 0
      ∧ TestSummaryGenerator.total_fraud [blockedFraud] = 1 := by
  refine ⟨?_, ?_, ?_⟩ <;> decide

/-- C5 (amended): for every list of test results, TP + FN equals the
number of fraud-positive tests whose status is PASSED or FAILED, and
TN + FP equals the number of legitimate tests whose status is PASSED or
FAILED (BLOCKED and SKIPPED tests of either population fall outside the
confusion matrix). -/
theorem C5_amended : ∀ rs : List TestResult,
    TestSummaryGenerator.true_positives rs + TestSummaryGenerator.false_negatives rs =
        (TestSummaryGenerator.fraud_tests rs).countP
          (fun r => r.status == TestStatus.PASSED || r.status == TestStatus.FAILED)
      ∧ TestSummaryGenerator.true_negatives rs + TestSummaryGenerator.false_positives rs =
        (TestSummaryGenerator.legit_tests rs).countP
          (fun r => r.status == TestStatus.PASSED || r.status == TestStatus.FAILED) := by
  intro rs
  constructor
  · exact countP_add_countP_disjoint (TestSummaryGenerator.fraud_tests rs)
      (fun r => r.status == TestStatus.PASSED) (fun r => r.status == TestStatus.FAILED)
      (fun x => by rcases x with ⟨i, st, e⟩; cases st <;> rfl)
  · exact countP_add_countP_disjoint (TestSummaryGenerator.legit_tests rs)
      (fun r => r.status == TestStatus.PASSED) (fun r => r.status == TestStatus.FAILED)
      (fun x => by rcases x with ⟨i, st, e⟩; cases st <;> rfl)

/-- C6: `_categorize_risk` classifies an overall score deterministically
by thresholds (at least 75 CRITICAL, at least 50 HIGH, at least 25
MEDIUM, below 25 LOW, half-open intervals), and the weighted overall
score is monotone in each of the four component scores separately. -/
theorem C6_risk_level_thresholds_and_monotone :
    (∀ q : ℚ, (75 ≤ q → categorize_risk q = RiskLevel.CRITICAL)
      ∧ (50 ≤ q → q < 75 → categorize_risk q = RiskLevel.HIGH)
      ∧ (25 ≤ q → q < 50 → categorize_risk q = RiskLevel.MEDIUM)
      ∧ (q < 25 → categorize_risk q = RiskLevel.LOW))
    ∧ (∀ d d' f c s : ℚ, d ≤ d' → overallScore d f c s ≤ overallScore d' f c s)
    ∧ (∀ d f f' c s : ℚ, f ≤ f' → overallScore d f c s ≤ overallScore d f' c s)
    ∧ (∀ d f c c' s : ℚ, c ≤ c' → overallScore d f c s ≤ overallScore d f c' s)
    ∧ (∀ d f c s s' : ℚ, s ≤ s' → overallScore d f c s ≤ overallScore d f c s') := by
  refine ⟨?_, ?_, ?_, ?_, ?_⟩
  · intro q
    refine ⟨fun h => ?_, fun h1 h2 => ?_, fun h1 h2 => ?_, fun h => ?_⟩ <;>
      · unfold categorize_risk
        split_ifs <;> first | rfl | linarith
  all_goals
    intro d x x' f c h
    unfold overallScore weight_detection weight_false_positive weight_compliance weight_system
    linarith

/-- C6 witness: concrete classifications at 80, 60, 30, 10 and concrete
monotonicity instances in each coordinate. -/
theorem C6_witness :
    categorize_risk 80 = RiskLevel.CRITICAL ∧ categorize_risk 60 = RiskLevel.HIGH
      ∧ categorize_risk 30 = RiskLevel.MEDIUM ∧ categorize_risk 10 = RiskLevel.LOW
      ∧ overallScore 10 20 30 40 ≤ overallScore 50 20 30 40
      ∧ overallScore 10 20 30 40 ≤ overallScore 10 50 30 40
      ∧ overallScore 10 20 30 40 ≤ overallScore 10 20 50 40
      ∧ overallScore 10 20 30 40 ≤ overallScore 10 20 30 50 := by
  have T := C6_risk_level_thresholds_and_monotone
  exact ⟨(T.1 80).1 (by norm_num), (T.1 60).2.1 (by norm_num) (by norm_num),
    (T.1 30).2.2.1 (by norm_num) (by norm_num), (T.1 10).2.2.2 (by norm_num),
    T.2.1 10 50 20 30 40 (by norm_num), T.2.2.1 10 20 50 30 40 (by norm_num),
    T.2.2.2.1 10 20 30 50 40 (by norm_num), T.2.2.2.2 10 20 30 40 50 (by norm_num)⟩

/-- C9: the aggregator's precision is TP/(TP+FP), recall is TP/(TP+FN)
and f1 is 2PR/(P+R), and each evaluates to 0 when its denominator is 0,
so the accuracy computation never divides by zero on any input. -/
theorem C9_metric_guards : ∀ rs : List TestResult,
    (TestSummaryGenerator.true_positives rs + TestSummaryGenerator.false_positives rs = 0 →
      TestSummaryGenerator.precision rs = 0)
    ∧ (0 < TestSummaryGenerator.true_positives rs + TestSummaryGenerator.false_positives rs →
      TestSummaryGenerator.precision rs =
        (TestSummaryGenerator.true_positives rs : ℚ) /
          ((TestSummaryGenerator.true_positives rs : ℚ)
            + (TestSummaryGenerator.false_positives rs : ℚ)))
    ∧ (TestSummaryGenerator.true_positives rs + TestSummaryGenerator.false_negatives rs = 0 →
      TestSummaryGenerator.recall_metric rs = 0)
    ∧ (0 < TestSummaryGenerator.true_positives rs + TestSummaryGenerator.false_negatives rs →
      TestSummaryGenerator.recall_metric rs =
        (TestSummaryGenerator.true_positives rs : ℚ) /
          ((TestSummaryGenerator.true_positives rs : ℚ)
            + (TestSummaryGenerator.false_negatives rs : ℚ)))
    ∧ (TestSummaryGenerator.precision rs + TestSummaryGenerator.recall_metric rs = 0 →
      TestSummaryGenerator.f1_score rs = 0)
    ∧ (0 < TestSummaryGenerator.precision rs + TestSummaryGenerator.recall_metric rs →
      TestSummaryGenerator.f1_score rs =
        2 * TestSummaryGenerator.precision rs * TestSummaryGenerator.recall_metric rs /
          (TestSummaryGenerator.precision rs + TestSummaryGenerator.recall_metric rs)) := by
  intro rs
  refine ⟨fun h => ?_, fun h => ?_, fun h => ?_, fun h => ?_, fun h => ?_, fun h => ?_⟩
  · simp only [TestSummaryGenerator.precision]
    rw [if_neg (by omega)]
  · simp only [TestSummaryGenerator.precision]
    rw [if_pos h]
  · simp only [TestSummaryGenerator.recall_metric]
    rw [if_neg (by omega)]
  · simp only [TestSummaryGenerator.recall_metric]
    rw [if_pos h]
  · simp only [TestSummaryGenerator.f1_score]
    rw [if_neg (by rw [h]; exact lt_irrefl 0)]
  · simp only [TestSummaryGenerator.f1_score]
    rw [if_pos h]

/-- C9 witness: on the empty result list every denominator is 0 and all
three metrics evaluate to 0. -/
theorem C9_witness :
    TestSummaryGenerator.precision [] = 0 ∧ TestSummaryGenerator.recall_metric [] = 0
      ∧ TestSummaryGenerator.f1_score [] = 0 := by
  have T := C9_metric_guards []
  have hp : TestSummaryGenerator.precision [] = 0 := T.1 (by rfl)
  have hr : TestSummaryGenerator.recall_metric [] = 0 := T.2.2.1 (by rfl)
  exact ⟨hp, hr, T.2.2.2.2.1 (by rw [hp, hr]; norm_num)⟩

/-- C10: the fraud-positive and legitimate partitions are disjoint in
both the aggregator and the risk analyzer: an id containing "neg"
(case-insensitive) fails the fraud-positive filter even if it also
contains "fraud", so no result is in both populations. -/
theorem C10_partitions_disjoint : ∀ (rs : List TestResult) (r : TestResult),
    (negTestFilter r = true → fraudTestFilter r = false)
    ∧ (r ∈ TestSummaryGenerator.fraud_tests rs → r ∉ TestSummaryGenerator.legit_tests rs)
    ∧ (r ∈ fraud_tests rs → r ∉ rs.filter negTestFilter) := by
  intro rs r
  have key : negTestFilter r = true → fraudTestFilter r = false := by
    intro h
    simp only [negTestFilter] at h
    simp [fraudTestFilter, h]
  refine ⟨key, fun hf hl => ?_, fun hf hl => ?_⟩
  · rw [TestSummaryGenerator.fraud_tests, List.mem_filter] at hf
    rw [TestSummaryGenerator.legit_tests, List.mem_filter] at hl
    exact absurd hf.2 (by simp [key hl.2])
  · rw [fraud_tests, List.mem_filter] at hf
    rw [List.mem_filter] at hl
    exact absurd hf.2 (by simp [key hl.2])

/-- C10 witness: an id containing both "fraud" and "neg" fails the
fraud filter, and a fraud-positive result is not in the legitimate
partition of its own singleton list. -/
theorem C10_witness :
    fraudTestFilter ⟨"FRAUD-neg-001", TestStatus.PASSED, []⟩ = false
      ∧ (⟨"FRAUD-001", TestStatus.PASSED, []⟩ : TestResult) ∉
          TestSummaryGenerator.legit_tests [⟨"FRAUD-001", TestStatus.PASSED, []⟩]
      ∧ (⟨"FRAUD-001", TestStatus.PASSED, []⟩ : TestResult) ∉
          ([⟨"FRAUD-001", TestStatus.PASSED, []⟩] : List TestResult).filter negTestFilter :=
  ⟨(C10_partitions_disjoint [] ⟨"FRAUD-neg-001", TestStatus.PASSED, []⟩).1 (by decide),
   (C10_partitions_disjoint [⟨"FRAUD-001", TestStatus.PASSED, []⟩]
      ⟨"FRAUD-001", TestStatus.PASSED, []⟩).2.1 (by decide),
   (C10_partitions_disjoint [⟨"FRAUD-001", TestStatus.PASSED, []⟩]
      ⟨"FRAUD-001", TestStatus.PASSED, []⟩).2.2 (by decide)⟩

/-- C7: the validator returns FAILED exactly when the accumulated error
list is non-empty and PASSED otherwise; warnings never affect the
status.  In particular a risk-score deviation above 15 points with no
error from any check yields a warning and status PASSED. -/
theorem C7_status_iff_errors : ∀ (tc : TestCase) (ar : ActualResult),
    ((validate_result tc ar).status = TestStatus.FAILED ↔ (validate_result tc ar).errors ≠ [])
    ∧ ((validate_result tc ar).status = TestStatus.PASSED ↔ (validate_result tc ar).errors = [])
    ∧ (∀ es as : ℚ, tc.expected_result.risk_score = some es → ar.risk_score = some as →
        |es - as| > 15 →
        alertErrors tc ar ++ performanceErrors tc ar ++ complianceErrors tc ar = [] →
        (validate_result tc ar).status = TestStatus.PASSED
          ∧ (validate_result tc ar).warnings ≠ []) := by
  intro tc ar
  have hs := validate_status tc ar
  have he := validate_errors tc ar
  have hw := validate_warnings tc ar
  have hiff : ((validate_result tc ar).status = TestStatus.FAILED
        ↔ (validate_result tc ar).errors ≠ [])
      ∧ ((validate_result tc ar).status = TestStatus.PASSED
        ↔ (validate_result tc ar).errors = []) := by
    rw [hs, he]
    cases hE : alertErrors tc ar ++ performanceErrors tc ar ++ complianceErrors tc ar with
    | nil => simp
    | cons x t => simp
  refine ⟨hiff.1, hiff.2, fun es as hes has hdev hE => ⟨?_, ?_⟩⟩
  · rw [hs, hE]
    simp
  · rw [hw]
    simp only [scoreWarnings, hes, has, Option.getD_some]
    rw [if_pos hdev]
    simp

/-- C7 witness: expected score 50, actual 80 (deviation 30), no expected
alert and a category triggering neither the performance nor the
compliance check: the result is PASSED with a non-empty warning list. -/
theorem C7_witness :
    (validate_result tcW arW).status = TestStatus.PASSED
      ∧ (validate_result tcW arW).warnings ≠ [] :=
  (C7_status_iff_errors tcW arW).2.2 50 80 rfl rfl (by norm_num) (by decide)

/-- C8 counterexample: on six fraud tests with one false negative the
stored detection risk is 93.33 and the stored overall score 32.67, but
the reported contribution sum is 93.33 * 0.35 = 32.6655, so the
decomposition does not sum back exactly to the stored overall score. -/
theorem C8_counterexample :
    calculate_risk ex6 = some exA6
      ∧ contributionSum exA6 ≠ exA6.overall_risk_score := by
  refine ⟨ex6_calc, ?_⟩
  norm_num [contributionSum, contribution_detection, contribution_false_positive,
    contribution_compliance, contribution_system, exA6, weight_detection,
    weight_false_positive, weight_compliance, weight_system]

/-- C8 (amended): the four risk weights sum to exactly 1, and for every
assessment produced by `calculate_risk` the reported contribution
decomposition sums back to the stored overall score to within 0.01 (not
exactly: stored scores are rounded to two decimals before the
contributions are formed). -/
theorem C8_amended :
    weight_detection + weight_false_positive + weight_compliance + weight_system = 1
      ∧ ∀ (rs : List TestResult) (a : RiskAssessment),
        calculate_risk rs = some a →
        |contributionSum a - a.overall_risk_score| ≤ 1/100 := by
  constructor
  · norm_num [weight_detection, weight_false_positive, weight_compliance, weight_system]
  · intro rs a h
    unfold calculate_risk at h
    simp only [Option.map_eq_some'] at h
    obtain ⟨recs, -, rfl⟩ := h
    simp only [contributionSum, contribution_detection, contribution_false_positive,
      contribution_compliance, contribution_system]
    have h1 := abs_round2_sub_le (calculate_detection_risk rs)
    have h2 := abs_round2_sub_le (calculate_false_positive_risk rs)
    have h3 := abs_round2_sub_le (calculate_compliance_risk rs)
    have h4 := abs_round2_sub_le (calculate_system_risk rs)
    have h5 := abs_round2_sub_le (overallScore (calculate_detection_risk rs)
      (calculate_false_positive_risk rs) (calculate_compliance_risk rs)
      (calculate_system_risk rs))
    rw [abs_le] at h1 h2 h3 h4 h5 ⊢
    unfold overallScore weight_detection weight_false_positive weight_compliance
      weight_system at h5 ⊢
    constructor <;> linarith

/-- C8 witness: the weight sum and the 0.01 bound instantiated on the
assessment computed from `ex6`. -/
theorem C8_amended_witness :
    weight_detection + weight_false_positive + weight_compliance + weight_system = 1
      ∧ |contributionSum exA6 - exA6.overall_risk_score| ≤ 1/100 :=
  ⟨C8_amended.1, C8_amended.2 ex6 exA6 ex6_calc⟩

/-- C1 counterexample: on an assessment with compliance risk 60, overall
score 56.5 and no critical-tagged failure, the primary decision path
(`FraudQAAgent.get_deployment_recommendation`) answers DEPLOY WITH
CAUTION — it has no compliance rule at all — while the spec's merged
five-rule list demands DO NOT DEPLOY (compliance blocking). -/
theorem C1_counterexample :
    FraudQAAgent.get_deployment_recommendation (some cexAssessment) [] =
        "⚠️ DEPLOY WITH CAUTION - Medium risk, requires approval"
      ∧ strContains (FraudQAAgent.get_deployment_recommendation (some cexAssessment) [])
          "DO NOT DEPLOY" = false
      ∧ specDeploymentDecision cexAssessment [] = SpecDecision.doNotDeployCompliance
      ∧ 60 ≤ cexAssessment.compliance_risk
      ∧ cexAssessment.overall_risk_score < 75 := by
  have hrec : FraudQAAgent.get_deployment_recommendation (some cexAssessment) [] =
      "⚠️ DEPLOY WITH CAUTION - Medium risk, requires approval" := by
    norm_num [FraudQAAgent.get_deployment_recommendation, cexAssessment]
  refine ⟨hrec, ?_, ?_, ?_, ?_⟩
  · rw [hrec]; decide
  · norm_num [specDeploymentDecision, cexAssessment]
  · norm_num [cexAssessment]
  · norm_num [cexAssessment]

/-- C1 (amended): the two decision paths implement different rule lists.
The primary path applies only rules 1, 2, 4, 5 of the spec (critical
failure, overall at least 75, overall at least 50, else approved) and
ignores compliance risk entirely; the detailed-report path applies the
compliance-blocking rule first and then maps the stored risk level
(CRITICAL to DO NOT DEPLOY, HIGH to DEPLOY WITH CAUTION, MEDIUM to
CONDITIONAL APPROVAL, LOW to APPROVED) and never consults the raw test
results.  Only the report path satisfies the claim's compliance
conclusion. -/
theorem C1_amended :
    (∀ (a : RiskAssessment) (rs : List TestResult),
      (0 < rs.countP FraudQAAgent.criticalFailureFilter →
        FraudQAAgent.get_deployment_recommendation (some a) rs =
          "🛑 DO NOT DEPLOY - Critical failures detected")
      ∧ (rs.countP FraudQAAgent.criticalFailureFilter = 0 → 75 ≤ a.overall_risk_score →
        FraudQAAgent.get_deployment_recommendation (some a) rs =
          "⚠️ DO NOT DEPLOY - High risk score")
      ∧ (rs.countP FraudQAAgent.criticalFailureFilter = 0 → a.overall_risk_score < 75 →
          50 ≤ a.overall_risk_score →
        FraudQAAgent.get_deployment_recommendation (some a) rs =
          "⚠️ DEPLOY WITH CAUTION - Medium risk, requires approval")
      ∧ (rs.countP FraudQAAgent.criticalFailureFilter = 0 → a.overall_risk_score < 50 →
        FraudQAAgent.get_deployment_recommendation (some a) rs =
          "✅ APPROVED FOR DEPLOYMENT - Low risk"))
    ∧ (∀ a : RiskAssessment,
      (60 ≤ a.compliance_risk → get_deployment_recommendation_report a =
        "🛑 DO NOT DEPLOY - Compliance violations (BLOCKING)")
      ∧ (a.compliance_risk < 60 → a.risk_level = RiskLevel.CRITICAL →
        get_deployment_recommendation_report a = "🛑 DO NOT DEPLOY - Critical risk level")
      ∧ (a.compliance_risk < 60 → a.risk_level = RiskLevel.HIGH →
        get_deployment_recommendation_report a =
          "⚠️ DEPLOY WITH CAUTION - High risk, requires executive approval")
      ∧ (a.compliance_risk < 60 → a.risk_level = RiskLevel.MEDIUM →
        get_deployment_recommendation_report a =
          "⚠️ CONDITIONAL APPROVAL - Medium risk, monitor closely post-deployment")
      ∧ (a.compliance_risk < 60 → a.risk_level = RiskLevel.LOW →
        get_deployment_recommendation_report a = "✅ APPROVED FOR DEPLOYMENT - Low risk")) := by
  constructor
  · intro a rs
    refine ⟨fun h => ?_, fun h0 h75 => ?_, fun h0 h75 h50 => ?_, fun h0 h50 => ?_⟩ <;>
      simp only [FraudQAAgent.get_deployment_recommendation]
    · rw [if_pos h]
    · rw [if_neg (by omega), if_pos h75]
    · rw [if_neg (by omega), if_neg (not_le.mpr h75), if_pos h50]
    · rw [if_neg (by omega), if_neg (not_le.mpr (by linarith)), if_neg (not_le.mpr h50)]
  · intro a
    refine ⟨fun h => ?_, fun hc hl => ?_, fun hc hl => ?_, fun hc hl => ?_, fun hc hl => ?_⟩ <;>
      simp only [get_deployment_recommendation_report]
    · rw [if_pos h]
    all_goals rw [if_neg (not_le.mpr hc), hl]
    all_goals simp

/-- C1 witness: each branch of both decision paths at a concrete
assessment and result list. -/
theorem C1_amended_witness :
    FraudQAAgent.get_deployment_recommendation (some cexAssessment) [critFailResult] =
        "🛑 DO NOT DEPLOY - Critical failures detected"
      ∧ FraudQAAgent.get_deployment_recommendation
          (some ⟨80, RiskLevel.CRITICAL, 0, 0, 0, 0, []⟩) [] =
        "⚠️ DO NOT DEPLOY - High risk score"
      ∧ FraudQAAgent.get_deployment_recommendation (some cexAssessment) [] =
        "⚠️ DEPLOY WITH CAUTION - Medium risk, requires approval"
      ∧ FraudQAAgent.get_deployment_recommendation
          (some ⟨10, RiskLevel.LOW, 0, 0, 0, 0, []⟩) [] =
        "✅ APPROVED FOR DEPLOYMENT - Low risk"
      ∧ get_deployment_recommendation_report cexAssessment =
        "🛑 DO NOT DEPLOY - Compliance violations (BLOCKING)"
      ∧ get_deployment_recommendation_report ⟨80, RiskLevel.CRITICAL, 0, 0, 0, 0, []⟩ =
        "🛑 DO NOT DEPLOY - Critical risk level"
      ∧ get_deployment_recommendation_report ⟨60, RiskLevel.HIGH, 0, 0, 0, 0, []⟩ =
        "⚠️ DEPLOY WITH CAUTION - High risk, requires executive approval"
      ∧ get_deployment_recommendation_report ⟨30, RiskLevel.MEDIUM, 0, 0, 0, 0, []⟩ =
        "⚠️ CONDITIONAL APPROVAL - Medium risk, monitor closely post-deployment"
      ∧ get_deployment_recommendation_report ⟨10, RiskLevel.LOW, 0, 0, 0, 0, []⟩ =
        "✅ APPROVED FOR DEPLOYMENT - Low risk" := by
  have T := C1_amended
  refine ⟨(T.1 cexAssessment [critFailResult]).1 (by decide),
    (T.1 _ []).2.1 rfl (show (75:ℚ) ≤ 80 by norm_num),
    (T.1 cexAssessment []).2.2.1 rfl (by norm_num [cexAssessment]) (by norm_num [cexAssessment]),
    (T.1 _ []).2.2.2 rfl (show (10:ℚ) < 50 by norm_num),
    (T.2 cexAssessment).1 (by norm_num [cexAssessment]),
    (T.2 _).2.1 (show (0:ℚ) < 60 by norm_num) rfl,
    (T.2 _).2.2.1 (show (0:ℚ) < 60 by norm_num) rfl,
    (T.2 _).2.2.2.1 (show (0:ℚ) < 60 by norm_num) rfl,
    (T.2 _).2.2.2.2 (show (0:ℚ) < 60 by norm_num) rfl⟩

end FraudQA
